import Mathlib

/-!
Shallow embedding of the guardian-vault Solana program
(src/contracts/solana/programs/guardian-vault/src/lib.rs).

Machine integers (u64, u8) are modelled as `Nat`; the program's explicit
`checked_add` calls are modelled with an explicit `2 ^ 64` bound, and the
u8 bitmap arithmetic in `approve_withdrawal` is carried out below `2 ^ 8`.
An instruction is a function returning `Except VaultError`; a Solana
transaction that returns an error commits nothing, so the observable step
function (`step` below) keeps the pre-state on error.  The account's
lamport balance lives next to the config data in `VaultAccount`; the rent
minimum (`Rent::get()?.minimum_balance(..)`) and the wall clock
(`Clock::get()?.unix_timestamp`) are host inputs, passed as parameters.
Pubkeys are modelled as `Nat`.  The PDA `bump` fields and event emission
are plumbing with no bearing on the claims and are omitted.
-/

namespace GuardianVault

/-- Maximum number of multi-sig signers (`MAX_SIGNERS` in the source). -/
def MAX_SIGNERS : Nat := 5

/-- Bound of the u64 machine integers used by the program. -/
def U64LIMIT : Nat := 2 ^ 64

/-- Error codes of the program (`VaultError` enum in the source). -/
inductive VaultError where
  | VaultNotActive
  | UnauthorizedAdmin
  | UnauthorizedAgent
  | UnauthorizedSigner
  | PerTxLimitExceeded
  | DailyLimitExceeded
  | InsufficientBalance
  | TooManySigners
  | InvalidThreshold
  | AlreadyExecuted
  | AlreadyCancelled
  | ThresholdNotMet
  | AlreadyApproved
  | InvalidGuardianId
  | Overflow
  | ZeroAmount
  deriving DecidableEq, Repr

/-- Vault configuration account (`VaultConfig` in the source; the PDA
`bump` byte is omitted). All u64/u8 fields are `Nat`. -/
structure VaultConfig where
  admin : Nat
  agent : Nat
  guardian_id : Nat
  per_tx_limit : Nat
  daily_limit : Nat
  daily_spent : Nat
  last_spend_day : Nat
  total_deposited : Nat
  total_withdrawn : Nat
  is_active : Bool
  multisig_threshold : Nat
  signer_count : Nat
  signers : List Nat
  deriving DecidableEq, Repr

/-- A vault account together with its lamport balance (the lamports of the
account holding the `VaultConfig` data). -/
structure VaultAccount where
  config : VaultConfig
  lamports : Nat
  deriving DecidableEq, Repr

/-- Pending multi-sig withdrawal request (`WithdrawalRequest` in the
source; the PDA `bump` byte is omitted). -/
structure WithdrawalRequest where
  vault : Nat
  destination : Nat
  amount : Nat
  initiator : Nat
  nonce : Nat
  approval_count : Nat
  approval_bitmap : Nat
  is_executed : Bool
  is_cancelled : Bool
  created_at : Int
  deriving DecidableEq, Repr

/-- Equality of instruction outcomes is decidable, so concrete runs can
be checked by evaluation. -/
instance {ε α : Type} [DecidableEq ε] [DecidableEq α] : DecidableEq (Except ε α) :=
  fun x y =>
    match x, y with
    | .error e, .error f =>
        if h : e = f then .isTrue (by rw [h])
        else .isFalse (fun hc => h (Except.error.inj hc))
    | .ok a, .ok b =>
        if h : a = b then .isTrue (by rw [h])
        else .isFalse (fun hc => h (Except.ok.inj hc))
    | .error _, .ok _ => .isFalse Except.noConfusion
    | .ok _, .error _ => .isFalse Except.noConfusion

/-- Rust `u64::checked_add`: `none` exactly on wraparound. -/
def checkedAdd (a b : Nat) : Option Nat :=
  if a + b < U64LIMIT then some (a + b) else none

/-- Rust cast `now as u64` of an `i64` value: two's-complement bitcast. -/
def u64ofI64 (x : Int) : Nat := (x % (2 ^ 64 : Int)).toNat

/-- Instruction `initialize` (named `create` in the spec; `initialize` is
the Rust symbol). Checks, in source order: guardian id, signer-list
length, threshold; then builds the fresh record. -/
def create (admin agent : Nat) (guardian_id per_tx_limit daily_limit : Nat)
    (multisig_threshold : Nat) (signers : List Nat) :
    Except VaultError VaultConfig :=
  if 9 < guardian_id then .error .InvalidGuardianId
  else if MAX_SIGNERS < signers.length then .error .TooManySigners
  else if ¬ (0 < multisig_threshold ∧ multisig_threshold ≤ signers.length) then
    .error .InvalidThreshold
  else .ok
    { admin := admin
      agent := agent
      guardian_id := guardian_id
      per_tx_limit := per_tx_limit
      daily_limit := daily_limit
      daily_spent := 0
      last_spend_day := 0
      total_deposited := 0
      total_withdrawn := 0
      is_active := true
      multisig_threshold := multisig_threshold
      signer_count := signers.length
      signers := signers }

/-- Instruction `deposit`: anyone may add funds; rejects zero amount; the
lamport transfer into the vault PDA precedes the checked bump of
`total_deposited` (an `Overflow` there aborts the whole transaction). -/
def deposit (v : VaultAccount) (amount : Nat) : Except VaultError VaultAccount :=
  if amount = 0 then .error .ZeroAmount
  else
    match checkedAdd v.config.total_deposited amount with
    | none => .error .Overflow
    | some td =>
        .ok { config := { v.config with total_deposited := td }
              lamports := v.lamports + amount }

/-- Value of `daily_spent` after the lazy day-window reset block of
`agent_spend` (`if current_day != vault.last_spend_day` in the source). -/
def resetSpent (vc : VaultConfig) (current_day : Nat) : Nat :=
  if current_day ≠ vc.last_spend_day then 0 else vc.daily_spent

/-- Value of `last_spend_day` after the lazy day-window reset block of
`agent_spend`. -/
def resetDay (vc : VaultConfig) (current_day : Nat) : Nat :=
  if current_day ≠ vc.last_spend_day then current_day else vc.last_spend_day

/-- Instruction `agent_spend`: guards in source order (zero amount, vault
active, agent identity, per-tx limit), then the lazy day-window reset,
the checked daily accumulation against `daily_limit`, the
rent-floor-adjusted balance check, and finally the transfer plus counter
updates. `now` is the host clock, `minBalance` the rent minimum. -/
def agent_spend (v : VaultAccount) (caller : Nat) (now : Int)
    (minBalance amount : Nat) : Except VaultError VaultAccount :=
  if amount = 0 then .error .ZeroAmount
  else if v.config.is_active = false then .error .VaultNotActive
  else if ¬ v.config.agent = caller then .error .UnauthorizedAgent
  else if v.config.per_tx_limit < amount then .error .PerTxLimitExceeded
  else
    match checkedAdd (resetSpent v.config (u64ofI64 now / 86400)) amount with
    | none => .error .Overflow
    | some new_daily_spent =>
        if v.config.daily_limit < new_daily_spent then .error .DailyLimitExceeded
        else if v.lamports - minBalance < amount then .error .InsufficientBalance
        else
          match checkedAdd v.config.total_withdrawn amount with
          | none => .error .Overflow
          | some tw =>
              .ok { config := { v.config with
                      daily_spent := new_daily_spent
                      last_spend_day := resetDay v.config (u64ofI64 now / 86400)
                      total_withdrawn := tw }
                    lamports := v.lamports - amount }

/-- Instruction `create_withdrawal_request`: requires a positive amount
and an active vault; initiator is unrestricted. `vaultKey` is the vault
account's address. -/
def create_withdrawal_request (v : VaultAccount) (vaultKey destination initiator : Nat)
    (now : Int) (amount nonce : Nat) : Except VaultError WithdrawalRequest :=
  if amount = 0 then .error .ZeroAmount
  else if v.config.is_active = false then .error .VaultNotActive
  else .ok
    { vault := vaultKey
      destination := destination
      amount := amount
      initiator := initiator
      nonce := nonce
      approval_count := 0
      approval_bitmap := 0
      is_executed := false
      is_cancelled := false
      created_at := now }

/-- Instruction `approve_withdrawal`: terminal-state guards, signer
lookup by position, double-approval guard on the u8 bitmap, then bit set
and count bump (u8 arithmetic: the shift amount is masked mod 8 as Rust
release builds do, and the count increment wraps mod 2^8). -/
def approve_withdrawal (vc : VaultConfig) (r : WithdrawalRequest) (signer : Nat) :
    Except VaultError WithdrawalRequest :=
  if r.is_executed then .error .AlreadyExecuted
  else if r.is_cancelled then .error .AlreadyCancelled
  else
    match vc.signers.findIdx? (fun s => s = signer) with
    | none => .error .UnauthorizedSigner
    | some signer_index =>
        if ¬ r.approval_bitmap &&& (1 <<< (signer_index % 8)) = 0 then
          .error .AlreadyApproved
        else .ok { r with
          approval_bitmap := r.approval_bitmap ||| (1 <<< (signer_index % 8))
          approval_count := (r.approval_count + 1) % (2 ^ 8) }

/-- Instruction `execute_withdrawal`: terminal-state guards, threshold
check, rent-floor-adjusted balance check, then the transfer, the
`is_executed` flag, and the checked `total_withdrawn` bump. Note the
source has no `is_active` check here. -/
def execute_withdrawal (v : VaultAccount) (r : WithdrawalRequest) (minBalance : Nat) :
    Except VaultError (VaultAccount × WithdrawalRequest) :=
  if r.is_executed then .error .AlreadyExecuted
  else if r.is_cancelled then .error .AlreadyCancelled
  else if r.approval_count < v.config.multisig_threshold then .error .ThresholdNotMet
  else if v.lamports - minBalance < r.amount then .error .InsufficientBalance
  else
    match checkedAdd v.config.total_withdrawn r.amount with
    | none => .error .Overflow
    | some tw =>
        .ok ({ config := { v.config with total_withdrawn := tw }
               lamports := v.lamports - r.amount },
             { r with is_executed := true })

/-- Instruction `emergency_withdraw`: admin-only; drains
`lamports - minBalance` (saturating subtraction), requiring it positive;
no `is_active` check. Returns the new vault state and the amount moved
to the destination. -/
def emergency_withdraw (v : VaultAccount) (caller : Nat) (minBalance : Nat) :
    Except VaultError (VaultAccount × Nat) :=
  if ¬ v.config.admin = caller then .error .UnauthorizedAdmin
  else if v.lamports - minBalance = 0 then .error .InsufficientBalance
  else
    match checkedAdd v.config.total_withdrawn (v.lamports - minBalance) with
    | none => .error .Overflow
    | some tw =>
        .ok ({ config := { v.config with total_withdrawn := tw }
               lamports := v.lamports - (v.lamports - minBalance) },
             v.lamports - minBalance)

/-- Helper applying a supplied new threshold, as the final block of
`update_config` does: validated against the signer count as it stands at
that point (after any signer-set change in the same call). -/
def updThreshold (vc : VaultConfig) (t? : Option Nat) : Except VaultError VaultConfig :=
  match t? with
  | none => .ok vc
  | some t =>
      if ¬ (0 < t ∧ t ≤ vc.signer_count) then .error .InvalidThreshold
      else .ok { vc with multisig_threshold := t }

/-- Optional-field block `if let Some(agent) = new_agent` of
`update_config`. -/
def setAgentOpt (vc : VaultConfig) : Option Nat → VaultConfig
  | some a => { vc with agent := a }
  | none => vc

/-- Optional-field block `if let Some(limit) = new_per_tx_limit` of
`update_config`. -/
def setPerTxOpt (vc : VaultConfig) : Option Nat → VaultConfig
  | some l => { vc with per_tx_limit := l }
  | none => vc

/-- Optional-field block `if let Some(limit) = new_daily_limit` of
`update_config`. -/
def setDailyOpt (vc : VaultConfig) : Option Nat → VaultConfig
  | some l => { vc with daily_limit := l }
  | none => vc

/-- Instruction `update_config`: admin-only; optional fields applied in
source order (agent, per-tx limit, daily limit, signers, threshold); the
signer list is length-checked, the threshold is checked against the
post-change signer count; no other cross-field validation. -/
def update_config (vc : VaultConfig) (caller : Nat) (new_agent : Option Nat)
    (new_per_tx_limit new_daily_limit : Option Nat)
    (new_multisig_threshold : Option Nat) (new_signers : Option (List Nat)) :
    Except VaultError VaultConfig :=
  if ¬ vc.admin = caller then .error .UnauthorizedAdmin
  else
    match new_signers with
    | some sg =>
        if MAX_SIGNERS < sg.length then .error .TooManySigners
        else updThreshold
          { setDailyOpt (setPerTxOpt (setAgentOpt vc new_agent) new_per_tx_limit)
              new_daily_limit with
            signer_count := sg.length, signers := sg }
          new_multisig_threshold
    | none => updThreshold
        (setDailyOpt (setPerTxOpt (setAgentOpt vc new_agent) new_per_tx_limit)
          new_daily_limit)
        new_multisig_threshold

/-- Instruction `set_active`: admin-only freeze/unfreeze toggle. -/
def set_active (vc : VaultConfig) (caller : Nat) (active : Bool) :
    Except VaultError VaultConfig :=
  if ¬ vc.admin = caller then .error .UnauthorizedAdmin
  else .ok { vc with is_active := active }

/-- Global on-chain state reachable by the claims: one vault account and
the withdrawal-request accounts keyed under it (by list position). -/
structure GlobalState where
  vault : VaultAccount
  requests : List WithdrawalRequest
  deriving DecidableEq, Repr

/-- One invocation of a vault instruction, with its caller-supplied and
host-supplied arguments. Requests are addressed by their position in
`GlobalState.requests`. -/
inductive Op where
  | deposit (amount : Nat)
  | agentSpend (caller : Nat) (now : Int) (minBalance amount : Nat)
  | updateConfig (caller : Nat) (new_agent : Option Nat)
      (new_per_tx_limit new_daily_limit : Option Nat)
      (new_multisig_threshold : Option Nat) (new_signers : Option (List Nat))
  | setActive (caller : Nat) (active : Bool)
  | createRequest (vaultKey destination initiator : Nat) (now : Int) (amount nonce : Nat)
  | approve (idx : Nat) (signer : Nat)
  | execute (idx : Nat) (minBalance : Nat)
  | emergencyWithdraw (caller : Nat) (minBalance : Nat)
  deriving DecidableEq, Repr

/-- Outcome of running one instruction as a transaction: the new global
state, a program error, or (`.error none`) a substrate-level failure
(the request account named by the op does not exist). -/
def runOp (s : GlobalState) : Op → Except (Option VaultError) GlobalState
  | .deposit amount =>
      match deposit s.vault amount with
      | .error e => .error (some e)
      | .ok v => .ok { s with vault := v }
  | .agentSpend caller now minBalance amount =>
      match agent_spend s.vault caller now minBalance amount with
      | .error e => .error (some e)
      | .ok v => .ok { s with vault := v }
  | .updateConfig caller a p d t sg =>
      match update_config s.vault.config caller a p d t sg with
      | .error e => .error (some e)
      | .ok vc => .ok { s with vault := { s.vault with config := vc } }
  | .setActive caller active =>
      match set_active s.vault.config caller active with
      | .error e => .error (some e)
      | .ok vc => .ok { s with vault := { s.vault with config := vc } }
  | .createRequest vaultKey destination initiator now amount nonce =>
      match create_withdrawal_request s.vault vaultKey destination initiator now amount nonce with
      | .error e => .error (some e)
      | .ok r => .ok { s with requests := s.requests ++ [r] }
  | .approve idx signer =>
      match s.requests[idx]? with
      | none => .error none
      | some r =>
          match approve_withdrawal s.vault.config r signer with
          | .error e => .error (some e)
          | .ok r1 => .ok { s with requests := s.requests.set idx r1 }
  | .execute idx minBalance =>
      match s.requests[idx]? with
      | none => .error none
      | some r =>
          match execute_withdrawal s.vault r minBalance with
          | .error e => .error (some e)
          | .ok (v, r1) => .ok { vault := v, requests := s.requests.set idx r1 }
  | .emergencyWithdraw caller minBalance =>
      match emergency_withdraw s.vault caller minBalance with
      | .error e => .error (some e)
      | .ok (v, _) => .ok { s with vault := v }

/-- Transactional commit: a failed transaction leaves the pre-state. -/
def commit {ε α : Type} (a : α) : Except ε α → α
  | .ok b => b
  | .error _ => a

/-- Observable effect of one instruction: the committed post-state, or
the unchanged pre-state when the transaction failed. -/
def step (s : GlobalState) (op : Op) : GlobalState :=
  commit s (runOp s op)

/-- Spending-window invariant claimed by the spec. -/
def dailyInv (vc : VaultConfig) : Prop := vc.daily_spent ≤ vc.daily_limit

/-- Multisig-threshold invariant claimed by the spec. -/
def thresholdInv (vc : VaultConfig) : Prop :=
  1 ≤ vc.multisig_threshold ∧ vc.multisig_threshold ≤ vc.signer_count

/-- An op is daily-window-unsafe in state `s` when it is an
`update_config` supplying a daily limit below the current `daily_spent`. -/
def lowersDaily (s : GlobalState) : Op → Bool
  | .updateConfig _ _ _ (some l) _ _ => l < s.vault.config.daily_spent
  | _ => false

/-- A sequence of ops is daily-window-safe from `s` when no op in it,
run at its place in the sequence, is daily-window-unsafe. -/
def dailySafe : GlobalState → List Op → Bool
  | _, [] => true
  | s, op :: rest => !lowersDaily s op && dailySafe (step s op) rest

/-- An op is threshold-unsafe in state `s` when it is an `update_config`
that replaces the signer set by one smaller than the current threshold
without supplying a new threshold. -/
def shrinksSigners (s : GlobalState) : Op → Bool
  | .updateConfig _ _ _ _ none (some sg) => sg.length < s.vault.config.multisig_threshold
  | _ => false

/-- A sequence of ops is threshold-safe from `s` when no op in it, run
at its place in the sequence, is threshold-unsafe. -/
def threshSafe : GlobalState → List Op → Bool
  | _, [] => true
  | s, op :: rest => !shrinksSigners s op && threshSafe (step s op) rest

/-- Running example vault configuration (admin 1, agent 2, three signers,
2-of-3 threshold, per-tx limit 100, daily limit 150). -/
def exCfg : VaultConfig :=
  { admin := 1, agent := 2, guardian_id := 3, per_tx_limit := 100, daily_limit := 150,
    daily_spent := 0, last_spend_day := 0, total_deposited := 0, total_withdrawn := 0,
    is_active := true, multisig_threshold := 2, signer_count := 3, signers := [10, 11, 12] }

/-- The example configuration, frozen. -/
def cfgFrozen : VaultConfig := { exCfg with is_active := false }

/-- The example vault account with 100 lamports. -/
def exVault : VaultAccount := { config := exCfg, lamports := 100 }

/-- The frozen example vault account with 100 lamports. -/
def frozenVault : VaultAccount := { config := cfgFrozen, lamports := 100 }

/-- The example configuration with 50 already spent today. -/
def cfgSpent : VaultConfig := { exCfg with daily_spent := 50 }

/-- The example configuration with `total_withdrawn` at the u64 maximum. -/
def cfgMaxTW : VaultConfig := { exCfg with total_withdrawn := U64LIMIT - 1 }

/-- Vault account whose lifetime-withdrawn counter is at the u64 maximum. -/
def maxTWVault : VaultAccount := { config := cfgMaxTW, lamports := 100 }

/-- Frozen vault account whose lifetime-withdrawn counter is at the u64
maximum. -/
def frozenMaxTWVault : VaultAccount :=
  { config := { cfgMaxTW with is_active := false }, lamports := 100 }

/-- A request for 5 lamports holding approvals from signers 0 and 1. -/
def apprReq : WithdrawalRequest :=
  { vault := 0, destination := 7, amount := 5, initiator := 2, nonce := 0,
    approval_count := 2, approval_bitmap := 3, is_executed := false,
    is_cancelled := false, created_at := 0 }

/-- A freshly created request with no approvals yet. -/
def freshReq : WithdrawalRequest :=
  { apprReq with approval_count := 0, approval_bitmap := 0 }

/-- Running example global state: the example vault and no requests. -/
def exState : GlobalState := { vault := exVault, requests := [] }

/-- Example vault that spent 80 on day 0 (window not yet reset). -/
def dayOneVault : VaultAccount :=
  { config := { exCfg with daily_spent := 80 }, lamports := 1000 }

/-- Expected result of spending 80 from `dayOneVault` early on day 1. -/
def dayOneResult : VaultAccount :=
  { config := { exCfg with daily_spent := 80, last_spend_day := 1, total_withdrawn := 80 },
    lamports := 920 }

/-- Example vault whose per-tx limit (300) exceeds its daily limit (100). -/
def tightVault : VaultAccount :=
  { config := { exCfg with per_tx_limit := 300, daily_limit := 100 }, lamports := 1000 }

/-- Example vault whose lifetime-deposited counter is at the u64 maximum. -/
def fullVault : VaultAccount :=
  { config := { exCfg with total_deposited := U64LIMIT - 1 }, lamports := 5 }

/-- A request holding one approval (signer index 0). -/
def singleReq : WithdrawalRequest :=
  { apprReq with approval_count := 1, approval_bitmap := 1 }

/-- The fresh request after one approval by signer 10 (index 0). -/
def onceReq : WithdrawalRequest :=
  { freshReq with approval_bitmap := 1, approval_count := 1 }

/-- An already-executed request. -/
def execReq : WithdrawalRequest := { apprReq with is_executed := true }

/-- An already-cancelled request. -/
def cancReq : WithdrawalRequest := { apprReq with is_cancelled := true }

/-- Expected vault state after executing `apprReq` against `exVault`. -/
def execResultVault : VaultAccount :=
  { config := { exCfg with total_withdrawn := 5 }, lamports := 95 }

/-- The example configuration after an admin shrinks the signer set to
one signer without supplying a new threshold. -/
def shrunkCfg : VaultConfig := { exCfg with signer_count := 1, signers := [10] }

/-! Helper lemmas shared by the claim theorems. -/

/-- Inversion of a successful checked u64 addition. -/
lemma checkedAdd_some {a b c : Nat} (h : checkedAdd a b = some c) :
    c = a + b ∧ a + b < U64LIMIT := by
  unfold checkedAdd at h
  split at h
  · exact ⟨(Option.some.inj h).symm, by assumption⟩
  · cases h

/-- A failed transaction commits nothing. -/
lemma step_of_error {s : GlobalState} {op : Op} {z : Option VaultError}
    (h : runOp s op = .error z) : step s op = s := by
  simp [step, h, commit]

/-- Fields of a successful `deposit` result. -/
lemma deposit_ok_fields {v v' : VaultAccount} {a : Nat}
    (h : deposit v a = .ok v') :
    v'.config.daily_spent = v.config.daily_spent ∧
    v'.config.daily_limit = v.config.daily_limit ∧
    v'.config.multisig_threshold = v.config.multisig_threshold ∧
    v'.config.signer_count = v.config.signer_count := by
  unfold deposit at h
  split at h
  · exact absurd h (by simp)
  · split at h
    · exact absurd h (by simp)
    · cases h
      simp

/-- Fields of a successful `agent_spend` result: the new `daily_spent`
passed the `daily_limit` guard, and the multisig fields are untouched. -/
lemma agent_spend_ok_fields {v v' : VaultAccount} {caller : Nat} {now : Int}
    {minBalance amount : Nat}
    (h : agent_spend v caller now minBalance amount = .ok v') :
    v'.config.daily_spent ≤ v'.config.daily_limit ∧
    v'.config.daily_limit = v.config.daily_limit ∧
    v'.config.multisig_threshold = v.config.multisig_threshold ∧
    v'.config.signer_count = v.config.signer_count := by
  unfold agent_spend at h
  split at h
  · exact absurd h (by simp)
  split at h
  · exact absurd h (by simp)
  split at h
  · exact absurd h (by simp)
  split at h
  · exact absurd h (by simp)
  split at h
  · exact absurd h (by simp)
  split at h
  · exact absurd h (by simp)
  split at h
  · exact absurd h (by simp)
  split at h
  · exact absurd h (by simp)
  next =>
    cases h
    refine ⟨?_, rfl, rfl, rfl⟩
    simp only
    omega

/-- A successful `updThreshold` with a supplied threshold sets it and
certifies the bounds against the current signer count. -/
lemma updThreshold_some_ok {vc vc' : VaultConfig} {t : Nat}
    (h : updThreshold vc (some t) = .ok vc') :
    vc' = { vc with multisig_threshold := t } ∧ 1 ≤ t ∧ t ≤ vc.signer_count := by
  simp only [updThreshold] at h
  split at h
  · exact absurd h (by simp)
  next hb =>
    rw [not_not] at hb
    cases h
    exact ⟨rfl, hb.1, hb.2⟩

/-- A successful `updThreshold` with no supplied threshold is the
identity. -/
lemma updThreshold_none_ok {vc vc' : VaultConfig}
    (h : updThreshold vc none = .ok vc') : vc' = vc := by
  simp only [updThreshold] at h
  exact (Except.ok.inj h).symm

/-- The three leading optional-field blocks of `update_config` touch
only `agent`, `per_tx_limit` and `daily_limit`. -/
lemma setOpts_fields (vc : VaultConfig) (a? p? d? : Option Nat) :
    (setDailyOpt (setPerTxOpt (setAgentOpt vc a?) p?) d?).daily_spent = vc.daily_spent ∧
    (setDailyOpt (setPerTxOpt (setAgentOpt vc a?) p?) d?).daily_limit = d?.getD vc.daily_limit ∧
    (setDailyOpt (setPerTxOpt (setAgentOpt vc a?) p?) d?).signer_count = vc.signer_count ∧
    (setDailyOpt (setPerTxOpt (setAgentOpt vc a?) p?) d?).multisig_threshold = vc.multisig_threshold := by
  cases a? <;> cases p? <;> cases d? <;> simp [setAgentOpt, setPerTxOpt, setDailyOpt]

/-- Fields of a successful `update_config` result: `daily_spent` is
never touched, `daily_limit` comes from the optional argument, and the
threshold is either untouched or freshly validated against the
post-change signer count. -/
lemma update_config_ok_fields {vc vc' : VaultConfig} {caller : Nat}
    {a? p? d? t? : Option Nat} {sg? : Option (List Nat)}
    (h : update_config vc caller a? p? d? t? sg? = .ok vc') :
    vc'.daily_spent = vc.daily_spent ∧
    vc'.daily_limit = d?.getD vc.daily_limit ∧
    vc'.signer_count = (sg?.map List.length).getD vc.signer_count ∧
    ((t? = none ∧ vc'.multisig_threshold = vc.multisig_threshold) ∨
      (1 ≤ vc'.multisig_threshold ∧ vc'.multisig_threshold ≤ vc'.signer_count)) := by
  obtain ⟨hds, hdl, hsc, hmt⟩ := setOpts_fields vc a? p? d?
  cases sg? with
  | none =>
      simp only [update_config] at h
      split at h
      · exact absurd h (by simp)
      cases t? with
      | none =>
          obtain rfl := updThreshold_none_ok h
          exact ⟨hds, hdl, by simpa using hsc, Or.inl ⟨rfl, hmt⟩⟩
      | some t =>
          obtain ⟨rfl, h1, h2⟩ := updThreshold_some_ok h
          refine ⟨hds, hdl, by simpa using hsc, Or.inr ⟨by simpa using h1, ?_⟩⟩
          simpa using h2
  | some sg =>
      simp only [update_config] at h
      split at h
      · exact absurd h (by simp)
      split at h
      · exact absurd h (by simp)
      cases t? with
      | none =>
          obtain rfl := updThreshold_none_ok h
          exact ⟨by simpa using hds, by simpa using hdl, by simp, Or.inl ⟨rfl, by simpa using hmt⟩⟩
      | some t =>
          obtain ⟨rfl, h1, h2⟩ := updThreshold_some_ok h
          refine ⟨by simpa using hds, by simpa using hdl, by simp, Or.inr ⟨by simpa using h1, ?_⟩⟩
          simpa using h2

/-- A successful `set_active` only flips the activity flag. -/
lemma set_active_ok {vc vc' : VaultConfig} {caller : Nat} {active : Bool}
    (h : set_active vc caller active = .ok vc') :
    vc' = { vc with is_active := active } := by
  unfold set_active at h
  split at h
  · exact absurd h (by simp)
  · exact (Except.ok.inj h).symm

/-- A successful `execute_withdrawal` only moves lamports, bumps
`total_withdrawn` and sets the executed flag. -/
lemma execute_withdrawal_ok_fields {v v' : VaultAccount}
    {r r' : WithdrawalRequest} {minBalance : Nat}
    (h : execute_withdrawal v r minBalance = .ok (v', r')) :
    v'.config = { v.config with
      total_withdrawn := v.config.total_withdrawn + r.amount } ∧
    v'.lamports = v.lamports - r.amount ∧
    r' = { r with is_executed := true } := by
  unfold execute_withdrawal at h
  split at h
  · exact absurd h (by simp)
  split at h
  · exact absurd h (by simp)
  split at h
  · exact absurd h (by simp)
  split at h
  · exact absurd h (by simp)
  split at h
  · exact absurd h (by simp)
  next tw hadd =>
    obtain ⟨rfl, _⟩ := checkedAdd_some hadd
    have h' := Except.ok.inj h
    rw [Prod.mk.injEq] at h'
    obtain ⟨h1, h2⟩ := h'
    exact ⟨by rw [← h1], by rw [← h1], h2.symm⟩

/-- A successful `emergency_withdraw` only moves lamports and bumps
`total_withdrawn`. -/
lemma emergency_withdraw_ok_fields {v v' : VaultAccount} {caller minBalance w : Nat}
    (h : emergency_withdraw v caller minBalance = .ok (v', w)) :
    w = v.lamports - minBalance ∧
    v'.config = { v.config with total_withdrawn := v.config.total_withdrawn + w } ∧
    v'.lamports = v.lamports - w := by
  unfold emergency_withdraw at h
  split at h
  · exact absurd h (by simp)
  split at h
  · exact absurd h (by simp)
  split at h
  · exact absurd h (by simp)
  next tw hadd =>
    obtain ⟨rfl, _⟩ := checkedAdd_some hadd
    have h' := Except.ok.inj h
    rw [Prod.mk.injEq] at h'
    obtain ⟨h1, h2⟩ := h'
    subst h2
    exact ⟨rfl, by rw [← h1], by rw [← h1]⟩

/-- A successful `create` yields the documented fresh record. -/
lemma create_ok {admin agent gid pt dl th : Nat} {sg : List Nat} {vc : VaultConfig}
    (h : create admin agent gid pt dl th sg = .ok vc) :
    vc = { admin := admin, agent := agent, guardian_id := gid, per_tx_limit := pt,
           daily_limit := dl, daily_spent := 0, last_spend_day := 0,
           total_deposited := 0, total_withdrawn := 0, is_active := true,
           multisig_threshold := th, signer_count := sg.length, signers := sg } ∧
    1 ≤ th ∧ th ≤ sg.length := by
  unfold create at h
  split at h
  · exact absurd h (by simp)
  split at h
  · exact absurd h (by simp)
  split at h
  · exact absurd h (by simp)
  next hb =>
    rw [not_not] at hb
    exact ⟨(Except.ok.inj h).symm, hb.1, hb.2⟩

/-- A committed transaction yields its post-state. -/
lemma step_eq_of_ok {s s' : GlobalState} {op : Op}
    (h : runOp s op = .ok s') : step s op = s' := by
  simp [step, h, commit]

/-- Every single instruction that is not a daily-limit-lowering
`update_config` preserves the spending-window invariant. -/
lemma dailyInv_step (s : GlobalState) (op : Op) (h : dailyInv s.vault.config)
    (hop : lowersDaily s op = false) :
    dailyInv (step s op).vault.config := by
  cases hr : runOp s op with
  | error z => rw [step_of_error hr]; exact h
  | ok s' =>
      rw [step_eq_of_ok hr]
      cases op with
      | deposit amount =>
          simp only [runOp] at hr
          split at hr
          · exact Except.noConfusion hr
          next v hv =>
            obtain rfl := Except.ok.inj hr
            obtain ⟨h1, h2, _, _⟩ := deposit_ok_fields hv
            unfold dailyInv at *
            dsimp only
            omega
      | agentSpend caller now minBalance amount =>
          simp only [runOp] at hr
          split at hr
          · exact Except.noConfusion hr
          next v hv =>
            obtain rfl := Except.ok.inj hr
            exact (agent_spend_ok_fields hv).1
      | updateConfig caller a p d t sg =>
          simp only [runOp] at hr
          split at hr
          · exact Except.noConfusion hr
          next vc hvc =>
            obtain rfl := Except.ok.inj hr
            obtain ⟨h1, h2, _, _⟩ := update_config_ok_fields hvc
            unfold dailyInv at *
            cases d with
            | none =>
                simp only [Option.getD_none] at h2
                dsimp only
                omega
            | some l =>
                simp only [lowersDaily, decide_eq_false_iff_not, Nat.not_lt] at hop
                simp only [Option.getD_some] at h2
                dsimp only
                omega
      | setActive caller active =>
          simp only [runOp] at hr
          split at hr
          · exact Except.noConfusion hr
          next vc hvc =>
            obtain rfl := Except.ok.inj hr
            obtain rfl := set_active_ok hvc
            exact h
      | createRequest vaultKey destination initiator now amount nonce =>
          simp only [runOp] at hr
          split at hr
          · exact Except.noConfusion hr
          next r hrq =>
            obtain rfl := Except.ok.inj hr
            exact h
      | approve idx signer =>
          simp only [runOp] at hr
          split at hr
          · exact Except.noConfusion hr
          next r hg =>
            split at hr
            · exact Except.noConfusion hr
            next r1 h1 =>
              obtain rfl := Except.ok.inj hr
              exact h
      | execute idx minBalance =>
          simp only [runOp] at hr
          split at hr
          · exact Except.noConfusion hr
          next r hg =>
            split at hr
            · exact Except.noConfusion hr
            next v1 r1 hx =>
              obtain rfl := Except.ok.inj hr
              obtain ⟨h1, _, _⟩ := execute_withdrawal_ok_fields hx
              unfold dailyInv at *
              rw [h1]
              exact h
      | emergencyWithdraw caller minBalance =>
          simp only [runOp] at hr
          split at hr
          · exact Except.noConfusion hr
          next v1 w hx =>
            obtain rfl := Except.ok.inj hr
            obtain ⟨_, h1, _⟩ := emergency_withdraw_ok_fields hx
            unfold dailyInv at *
            rw [h1]
            exact h

/-- Interpreting a sequence of daily-window-safe instructions preserves
the spending-window invariant. -/
lemma dailyInv_fold (ops : List Op) (s : GlobalState) (h : dailyInv s.vault.config)
    (hsafe : dailySafe s ops = true) :
    dailyInv ((ops.foldl step s).vault.config) := by
  induction ops generalizing s with
  | nil => exact h
  | cons op rest ih =>
      simp only [dailySafe, Bool.and_eq_true, Bool.not_eq_true'] at hsafe
      simp only [List.foldl_cons]
      exact ih (step s op) (dailyInv_step s op h hsafe.1) hsafe.2

/-- Every single instruction that is not a signer-set-shrinking
`update_config` preserves the threshold invariant. -/
lemma thresholdInv_step (s : GlobalState) (op : Op) (h : thresholdInv s.vault.config)
    (hop : shrinksSigners s op = false) :
    thresholdInv (step s op).vault.config := by
  cases hr : runOp s op with
  | error z => rw [step_of_error hr]; exact h
  | ok s' =>
      rw [step_eq_of_ok hr]
      cases op with
      | deposit amount =>
          simp only [runOp] at hr
          split at hr
          · exact Except.noConfusion hr
          next v hv =>
            obtain rfl := Except.ok.inj hr
            obtain ⟨_, _, h3, h4⟩ := deposit_ok_fields hv
            unfold thresholdInv at *
            dsimp only
            omega
      | agentSpend caller now minBalance amount =>
          simp only [runOp] at hr
          split at hr
          · exact Except.noConfusion hr
          next v hv =>
            obtain rfl := Except.ok.inj hr
            obtain ⟨_, _, h3, h4⟩ := agent_spend_ok_fields hv
            unfold thresholdInv at *
            dsimp only
            omega
      | updateConfig caller a p d t sg =>
          simp only [runOp] at hr
          split at hr
          · exact Except.noConfusion hr
          next vc hvc =>
            obtain rfl := Except.ok.inj hr
            obtain ⟨_, _, h3, h4⟩ := update_config_ok_fields hvc
            unfold thresholdInv at *
            dsimp only
            rcases h4 with ⟨rfl, h4⟩ | h4
            · cases sg with
              | none =>
                  simp only [Option.map_none', Option.getD_none] at h3
                  omega
              | some sgl =>
                  simp only [shrinksSigners, decide_eq_false_iff_not, Nat.not_lt] at hop
                  simp only [Option.map_some', Option.getD_some] at h3
                  omega
            · omega
      | setActive caller active =>
          simp only [runOp] at hr
          split at hr
          · exact Except.noConfusion hr
          next vc hvc =>
            obtain rfl := Except.ok.inj hr
            obtain rfl := set_active_ok hvc
            exact h
      | createRequest vaultKey destination initiator now amount nonce =>
          simp only [runOp] at hr
          split at hr
          · exact Except.noConfusion hr
          next r hrq =>
            obtain rfl := Except.ok.inj hr
            exact h
      | approve idx signer =>
          simp only [runOp] at hr
          split at hr
          · exact Except.noConfusion hr
          next r hg =>
            split at hr
            · exact Except.noConfusion hr
            next r1 h1 =>
              obtain rfl := Except.ok.inj hr
              exact h
      | execute idx minBalance =>
          simp only [runOp] at hr
          split at hr
          · exact Except.noConfusion hr
          next r hg =>
            split at hr
            · exact Except.noConfusion hr
            next v1 r1 hx =>
              obtain rfl := Except.ok.inj hr
              obtain ⟨h1, _, _⟩ := execute_withdrawal_ok_fields hx
              unfold thresholdInv at *
              dsimp only
              rw [h1]
              exact h
      | emergencyWithdraw caller minBalance =>
          simp only [runOp] at hr
          split at hr
          · exact Except.noConfusion hr
          next v1 w hx =>
            obtain rfl := Except.ok.inj hr
            obtain ⟨_, h1, _⟩ := emergency_withdraw_ok_fields hx
            unfold thresholdInv at *
            dsimp only
            rw [h1]
            exact h

/-- Interpreting a sequence of threshold-safe instructions preserves the
threshold invariant. -/
lemma thresholdInv_fold (ops : List Op) (s : GlobalState)
    (h : thresholdInv s.vault.config) (hsafe : threshSafe s ops = true) :
    thresholdInv ((ops.foldl step s).vault.config) := by
  induction ops generalizing s with
  | nil => exact h
  | cons op rest ih =>
      simp only [threshSafe, Bool.and_eq_true, Bool.not_eq_true'] at hsafe
      simp only [List.foldl_cons]
      exact ih (step s op) (thresholdInv_step s op h hsafe.1) hsafe.2

/-- Inversion of a successful `approve_withdrawal`: the request was
non-terminal, the signer resolved to an index whose bit was clear, and
the result sets that bit and bumps the count. -/
lemma approve_withdrawal_ok {vc : VaultConfig} {r r' : WithdrawalRequest} {signer : Nat}
    (h : approve_withdrawal vc r signer = .ok r') :
    ∃ idx, r.is_executed = false ∧ r.is_cancelled = false ∧
      vc.signers.findIdx? (fun s => s = signer) = some idx ∧
      r.approval_bitmap &&& (1 <<< (idx % 8)) = 0 ∧
      r' = { r with
        approval_bitmap := r.approval_bitmap ||| (1 <<< (idx % 8))
        approval_count := (r.approval_count + 1) % (2 ^ 8) } := by
  unfold approve_withdrawal at h
  split at h
  · exact Except.noConfusion h
  split at h
  · exact Except.noConfusion h
  next hex hcn =>
    split at h
    · exact Except.noConfusion h
    next idx hidx =>
      split at h
      · exact Except.noConfusion h
      next hbit =>
        rw [not_not] at hbit
        refine ⟨idx, ?_, ?_, hidx, hbit, (Except.ok.inj h).symm⟩
        · exact Bool.not_eq_true _ ▸ Bool.eq_false_iff.mpr hex
        · exact Bool.not_eq_true _ ▸ Bool.eq_false_iff.mpr hcn

/-- A left-or never clears a set bit: the freshly set approval bit is
still set afterwards. -/
lemma or_and_self (a b : Nat) : (a ||| b) &&& b = b := by
  apply Nat.eq_of_testBit_eq
  intro i
  simp [Nat.testBit_and, Nat.testBit_or, Bool.and_or_distrib_right]

/-- A one-bit mask is nonzero. -/
lemma one_shiftLeft_ne_zero (k : Nat) : 1 <<< k ≠ 0 := by
  intro h0
  have ht : Nat.testBit (1 <<< k) k = true := by
    rw [Nat.testBit_shiftLeft]
    simp
  rw [h0] at ht
  simp at ht

/-- Whenever `amount` exceeds the per-transaction limit, `agent_spend`
fails with one of the pre-transfer guard errors. -/
lemma agent_spend_over_ptx_fails (v : VaultAccount) (caller : Nat) (now : Int)
    (minBalance amount : Nat) (h : v.config.per_tx_limit < amount) :
    ∃ e, agent_spend v caller now minBalance amount = .error e := by
  unfold agent_spend
  rw [if_neg (by omega : ¬ amount = 0)]
  by_cases hact : v.config.is_active = false
  · rw [if_pos hact]
    exact ⟨_, rfl⟩
  · rw [if_neg hact]
    by_cases hag : ¬ v.config.agent = caller
    · rw [if_pos hag]
      exact ⟨_, rfl⟩
    · rw [if_neg hag, if_pos h]
      exact ⟨_, rfl⟩

/-! Claim theorems. -/

/-- C10: every call of the vault-creation instruction with a guardian id
greater than 9 fails with `InvalidGuardianId`, whatever the other
arguments, and no record is produced. -/
theorem C10_create_rejects_bad_guardian_id
    (admin agent gid pt dl th : Nat) (sg : List Nat) (h : 9 < gid) :
    create admin agent gid pt dl th sg = .error .InvalidGuardianId := by
  unfold create
  rw [if_pos h]

/-- Witness for C10 at guardian id 10. -/
theorem C10_create_rejects_bad_guardian_id_witness :
    9 < 10 ∧ create 1 2 10 100 150 2 [10, 11, 12] = .error .InvalidGuardianId :=
  ⟨by decide, C10_create_rejects_bad_guardian_id 1 2 10 100 150 2 [10, 11, 12] (by decide)⟩

/-- C6: a successful `agent_spend` at a clock time whose day index
differs from `last_spend_day` resets the window before applying the
amount: afterwards `daily_spent` equals exactly that spend's amount and
`last_spend_day` equals the new day index. -/
theorem C6_day_boundary_resets_window
    (v v' : VaultAccount) (caller : Nat) (now : Int) (minBalance amount : Nat)
    (hday : u64ofI64 now / 86400 ≠ v.config.last_spend_day)
    (h : agent_spend v caller now minBalance amount = .ok v') :
    v'.config.daily_spent = amount ∧
    v'.config.last_spend_day = u64ofI64 now / 86400 := by
  unfold agent_spend at h
  split at h
  · exact Except.noConfusion h
  split at h
  · exact Except.noConfusion h
  split at h
  · exact Except.noConfusion h
  split at h
  · exact Except.noConfusion h
  split at h
  · exact Except.noConfusion h
  next nds hadd =>
    split at h
    · exact Except.noConfusion h
    split at h
    · exact Except.noConfusion h
    split at h
    · exact Except.noConfusion h
    next tw htw =>
      obtain rfl := Except.ok.inj h
      obtain ⟨rfl, _⟩ := checkedAdd_some hadd
      constructor
      · show resetSpent v.config (u64ofI64 now / 86400) + amount = amount
        unfold resetSpent
        rw [if_pos hday]
        exact Nat.zero_add amount
      · show resetDay v.config (u64ofI64 now / 86400) = u64ofI64 now / 86400
        unfold resetDay
        rw [if_pos hday]

/-- Witness for C6: 80 spent on day 0, another 80 early on day 1 leaves
`daily_spent = 80` (not 160) and `last_spend_day = 1`. -/
theorem C6_day_boundary_resets_window_witness :
    u64ofI64 86405 / 86400 ≠ dayOneVault.config.last_spend_day ∧
    agent_spend dayOneVault 2 86405 10 80 = .ok dayOneResult ∧
    dayOneResult.config.daily_spent = 80 ∧
    dayOneResult.config.last_spend_day = u64ofI64 86405 / 86400 :=
  ⟨by decide, by decide,
    (C6_day_boundary_resets_window dayOneVault dayOneResult 2 86405 10 80
      (by decide) (by decide)).1,
    (C6_day_boundary_resets_window dayOneVault dayOneResult 2 86405 10 80
      (by decide) (by decide)).2⟩

/-- C3: a failed transaction leaves the vault and request records exactly
as they were (the Solana runtime commits nothing on error — conjunct 1);
in particular an `agent_spend` rejected by `DailyLimitExceeded` after the
internal day-boundary reset fails, leaving the old window observable
(conjunct 2), and a `deposit` whose `total_deposited` bump overflows
fails with `Overflow`, leaving the balance unchanged (conjunct 3). -/
theorem C3_failure_leaves_state_unchanged :
    (∀ (s : GlobalState) (op : Op) (z : Option VaultError),
        runOp s op = .error z → step s op = s) ∧
    (∀ (v : VaultAccount) (caller : Nat) (now : Int) (minBalance amount : Nat),
        v.config.is_active = true → v.config.agent = caller →
        amount ≠ 0 → amount ≤ v.config.per_tx_limit → amount < U64LIMIT →
        u64ofI64 now / 86400 ≠ v.config.last_spend_day →
        v.config.daily_limit < amount →
        agent_spend v caller now minBalance amount = .error .DailyLimitExceeded) ∧
    (∀ (v : VaultAccount) (amount : Nat), amount ≠ 0 →
        ¬ v.config.total_deposited + amount < U64LIMIT →
        deposit v amount = .error .Overflow) := by
  refine ⟨fun s op z h => step_of_error h, ?_, ?_⟩
  · intro v caller now minB amount hact hag h0 hptx hsm hday hdl
    unfold agent_spend
    rw [if_neg h0, hact, if_neg (by simp), if_neg (not_not_intro hag),
      if_neg (Nat.not_lt.mpr hptx)]
    unfold resetSpent
    rw [if_pos hday]
    simp only [checkedAdd]
    rw [if_pos (by omega : 0 + amount < U64LIMIT)]
    dsimp only
    rw [if_pos (by omega : v.config.daily_limit < 0 + amount)]
  · intro v amount h0 hov
    unfold deposit
    rw [if_neg h0]
    simp only [checkedAdd]
    rw [if_neg hov]

/-- Witness for C3: a zero deposit commits nothing; a day-crossing spend
of 200 against daily limit 100 fails `DailyLimitExceeded`; a deposit onto
a maxed-out lifetime counter fails `Overflow`. -/
theorem C3_failure_leaves_state_unchanged_witness :
    step exState (.deposit 0) = exState ∧
    agent_spend tightVault 2 86405 10 200 = .error .DailyLimitExceeded ∧
    deposit fullVault 2 = .error .Overflow :=
  ⟨C3_failure_leaves_state_unchanged.1 exState (.deposit 0) (some .ZeroAmount) (by decide),
   C3_failure_leaves_state_unchanged.2.1 tightVault 2 86405 10 200 (by decide) (by decide)
     (by decide) (by decide) (by decide) (by decide) (by decide),
   C3_failure_leaves_state_unchanged.2.2 fullVault 2 (by decide) (by decide)⟩

/-- C8: a second `approve_withdrawal` by the same signer fails
`AlreadyApproved` (conjunct 1 for a literal second call, conjunct 2 for
any request whose bitmap bit is already set); approving an executed or a
cancelled request fails `AlreadyExecuted` / `AlreadyCancelled`
(conjuncts 3 and 4); and every failing approve transaction commits
nothing, leaving `approval_count` and `approval_bitmap` unchanged
(conjunct 5). -/
theorem C8_approve_guards :
    (∀ (vc : VaultConfig) (r r' : WithdrawalRequest) (signer : Nat),
        approve_withdrawal vc r signer = .ok r' →
        approve_withdrawal vc r' signer = .error .AlreadyApproved) ∧
    (∀ (vc : VaultConfig) (r : WithdrawalRequest) (signer idx : Nat),
        r.is_executed = false → r.is_cancelled = false →
        vc.signers.findIdx? (fun s => s = signer) = some idx →
        ¬ r.approval_bitmap &&& (1 <<< (idx % 8)) = 0 →
        approve_withdrawal vc r signer = .error .AlreadyApproved) ∧
    (∀ (vc : VaultConfig) (r : WithdrawalRequest) (signer : Nat),
        r.is_executed = true →
        approve_withdrawal vc r signer = .error .AlreadyExecuted) ∧
    (∀ (vc : VaultConfig) (r : WithdrawalRequest) (signer : Nat),
        r.is_executed = false → r.is_cancelled = true →
        approve_withdrawal vc r signer = .error .AlreadyCancelled) ∧
    (∀ (s : GlobalState) (i signer : Nat) (z : Option VaultError),
        runOp s (.approve i signer) = .error z → step s (.approve i signer) = s) := by
  have happrove : ∀ (vc : VaultConfig) (r : WithdrawalRequest) (signer idx : Nat),
      r.is_executed = false → r.is_cancelled = false →
      vc.signers.findIdx? (fun s => s = signer) = some idx →
      ¬ r.approval_bitmap &&& (1 <<< (idx % 8)) = 0 →
      approve_withdrawal vc r signer = .error .AlreadyApproved := by
    intro vc r signer idx hex hcn hidx hbit
    unfold approve_withdrawal
    rw [if_neg (by simp [hex]), if_neg (by simp [hcn]), hidx]
    dsimp only
    rw [if_pos hbit]
  refine ⟨?_, happrove, ?_, ?_, fun s i signer z h => step_of_error h⟩
  · intro vc r r' signer h
    obtain ⟨idx, hex, hcn, hidx, hbit, rfl⟩ := approve_withdrawal_ok h
    refine happrove vc _ signer idx (by simpa using hex) (by simpa using hcn)
      hidx ?_
    show ¬ (r.approval_bitmap ||| (1 <<< (idx % 8))) &&& (1 <<< (idx % 8)) = 0
    rw [or_and_self]
    exact one_shiftLeft_ne_zero _
  · intro vc r signer hex
    unfold approve_withdrawal
    rw [if_pos hex]
  · intro vc r signer hex hcn
    unfold approve_withdrawal
    rw [if_neg (by simp [hex]), if_pos hcn]

/-- Witness for C8: after signer 10 approves the fresh request, a second
approval by signer 10 fails `AlreadyApproved`; approving executed and
cancelled requests fails with the matching errors; a failing approve on
the example state commits nothing. -/
theorem C8_approve_guards_witness :
    approve_withdrawal exCfg freshReq 10 = .ok onceReq ∧
    approve_withdrawal exCfg onceReq 10 = .error .AlreadyApproved ∧
    approve_withdrawal exCfg execReq 11 = .error .AlreadyExecuted ∧
    approve_withdrawal exCfg cancReq 11 = .error .AlreadyCancelled ∧
    step exState (.approve 0 10) = exState :=
  ⟨by decide,
   C8_approve_guards.1 exCfg freshReq onceReq 10 (by decide),
   C8_approve_guards.2.2.1 exCfg execReq 11 (by decide),
   C8_approve_guards.2.2.2.1 exCfg cancReq 11 (by decide) (by decide),
   C8_approve_guards.2.2.2.2 exState 0 10 none (by decide)⟩

/-- C5 counterexample: on a frozen vault an over-per-tx-limit spend fails
with `VaultNotActive`, not `PerTxLimitExceeded`, so the claim as stated
(the error is always `PerTxLimitExceeded`) is false. -/
theorem C5_counterexample :
    frozenVault.config.per_tx_limit < 101 ∧
    agent_spend frozenVault 2 0 10 101 = .error .VaultNotActive ∧
    VaultError.VaultNotActive ≠ VaultError.PerTxLimitExceeded := by
  decide

/-- C5 (amended): on an active vault called by its agent, a spend above
`per_tx_limit` fails exactly with `PerTxLimitExceeded` (conjunct 1); on
every vault state such a spend fails with some guard error (conjunct 2)
and the failed transaction leaves all counters and the balance unchanged
(conjunct 3). -/
theorem C5_per_tx_limit_guard :
    (∀ (v : VaultAccount) (caller : Nat) (now : Int) (minBalance amount : Nat),
        v.config.is_active = true → v.config.agent = caller →
        v.config.per_tx_limit < amount →
        agent_spend v caller now minBalance amount = .error .PerTxLimitExceeded) ∧
    (∀ (v : VaultAccount) (caller : Nat) (now : Int) (minBalance amount : Nat),
        v.config.per_tx_limit < amount →
        ∃ e, agent_spend v caller now minBalance amount = .error e) ∧
    (∀ (s : GlobalState) (caller : Nat) (now : Int) (minBalance amount : Nat),
        s.vault.config.per_tx_limit < amount →
        step s (.agentSpend caller now minBalance amount) = s) := by
  refine ⟨?_, fun v caller now minB amount h =>
    agent_spend_over_ptx_fails v caller now minB amount h, ?_⟩
  · intro v caller now minB amount hact hag h
    unfold agent_spend
    rw [if_neg (by omega : ¬ amount = 0), hact, if_neg (by simp),
      if_neg (not_not_intro hag), if_pos h]
  · intro s caller now minB amount h
    obtain ⟨e, he⟩ := agent_spend_over_ptx_fails s.vault caller now minB amount h
    have hrun : runOp s (.agentSpend caller now minB amount) = .error (some e) := by
      simp only [runOp]
      rw [he]
    exact step_of_error hrun

/-- Witness for C5: a spend of 101 (per-tx limit 100) on the active
example vault fails `PerTxLimitExceeded`; on the frozen vault it still
fails (with some error) and the transaction commits nothing. -/
theorem C5_per_tx_limit_guard_witness :
    agent_spend exVault 2 0 10 101 = .error .PerTxLimitExceeded ∧
    (∃ e, agent_spend frozenVault 2 0 10 101 = .error e) ∧
    step exState (.agentSpend 2 0 10 101) = exState :=
  ⟨C5_per_tx_limit_guard.1 exVault 2 0 10 101 (by decide) (by decide) (by decide),
   C5_per_tx_limit_guard.2.1 frozenVault 2 0 10 101 (by decide),
   C5_per_tx_limit_guard.2.2 exState 2 0 10 101 (by decide)⟩

/-- C7 counterexample: a non-terminal request with quorum met and ample
balance still fails (`Overflow`) when the `total_withdrawn` bump would
wrap u64, so "succeeds exactly when approvals and balance suffice" is
false as stated. -/
theorem C7_counterexample :
    apprReq.is_executed = false ∧ apprReq.is_cancelled = false ∧
    maxTWVault.config.multisig_threshold ≤ apprReq.approval_count ∧
    apprReq.amount ≤ maxTWVault.lamports - 10 ∧
    execute_withdrawal maxTWVault apprReq 10 = .error .Overflow := by
  decide

/-- C7 (amended): for a non-terminal request, `execute_withdrawal` fails
`ThresholdNotMet` exactly when `approval_count < multisig_threshold`
(conjunct 1), and succeeds exactly when the threshold is met, the
rent-floor-adjusted balance suffices, and the `total_withdrawn` bump does
not overflow u64 (conjunct 2); success moves exactly the request amount
and sets `is_executed` (conjunct 3); once executed, any further execute
fails `AlreadyExecuted` (conjunct 4). -/
theorem C7_execute_characterization :
    (∀ (v : VaultAccount) (r : WithdrawalRequest) (minBalance : Nat),
        r.is_executed = false → r.is_cancelled = false →
        (execute_withdrawal v r minBalance = .error .ThresholdNotMet ↔
          r.approval_count < v.config.multisig_threshold)) ∧
    (∀ (v : VaultAccount) (r : WithdrawalRequest) (minBalance : Nat),
        r.is_executed = false → r.is_cancelled = false →
        ((∃ p, execute_withdrawal v r minBalance = .ok p) ↔
          (v.config.multisig_threshold ≤ r.approval_count ∧
           r.amount ≤ v.lamports - minBalance ∧
           v.config.total_withdrawn + r.amount < U64LIMIT))) ∧
    (∀ (v v' : VaultAccount) (r r' : WithdrawalRequest) (minBalance : Nat),
        execute_withdrawal v r minBalance = .ok (v', r') →
        v'.lamports = v.lamports - r.amount ∧ r'.is_executed = true ∧
        v'.config.total_withdrawn = v.config.total_withdrawn + r.amount) ∧
    (∀ (v : VaultAccount) (r : WithdrawalRequest) (minBalance : Nat),
        r.is_executed = true →
        execute_withdrawal v r minBalance = .error .AlreadyExecuted) := by
  refine ⟨?_, ?_, ?_, ?_⟩
  · intro v r minBalance hex hcn
    unfold execute_withdrawal
    rw [if_neg (by simp [hex]), if_neg (by simp [hcn])]
    by_cases hth : r.approval_count < v.config.multisig_threshold
    · rw [if_pos hth]
      simp [hth]
    · rw [if_neg hth]
      simp only [hth, iff_false]
      intro hcontra
      split at hcontra
      · exact absurd (Except.error.inj hcontra) (by decide)
      · split at hcontra
        · exact absurd (Except.error.inj hcontra) (by decide)
        · exact Except.noConfusion hcontra
  · intro v r minBalance hex hcn
    unfold execute_withdrawal
    rw [if_neg (by simp [hex]), if_neg (by simp [hcn])]
    by_cases hth : r.approval_count < v.config.multisig_threshold
    · rw [if_pos hth]
      constructor
      · rintro ⟨p, hp⟩
        exact Except.noConfusion hp
      · rintro ⟨h1, -, -⟩
        omega
    · rw [if_neg hth]
      by_cases hbal : v.lamports - minBalance < r.amount
      · rw [if_pos hbal]
        constructor
        · rintro ⟨p, hp⟩
          exact Except.noConfusion hp
        · rintro ⟨-, h2, -⟩
          omega
      · rw [if_neg hbal]
        rcases hadd : checkedAdd v.config.total_withdrawn r.amount with - | tw
        · dsimp only
          constructor
          · rintro ⟨p, hp⟩
            exact Except.noConfusion hp
          · rintro ⟨-, -, h3⟩
            unfold checkedAdd at hadd
            rw [if_pos h3] at hadd
            exact Option.noConfusion hadd
        · dsimp only
          constructor
          · rintro -
            exact ⟨by omega, by omega, (checkedAdd_some hadd).2⟩
          · rintro -
            exact ⟨_, rfl⟩
  · intro v v' r r' minBalance h
    obtain ⟨h1, h2, h3⟩ := execute_withdrawal_ok_fields h
    exact ⟨h2, by rw [h3], by rw [h1]⟩
  · intro v r minBalance hex
    unfold execute_withdrawal
    rw [if_pos hex]

/-- Witness for C7: one approval of two fails `ThresholdNotMet`; with two
approvals the execute succeeds and moves 5 lamports, setting the flag; a
repeat execute fails `AlreadyExecuted`. -/
theorem C7_execute_characterization_witness :
    execute_withdrawal exVault singleReq 10 = .error .ThresholdNotMet ∧
    (∃ p, execute_withdrawal exVault apprReq 10 = .ok p) ∧
    (execResultVault.lamports = exVault.lamports - apprReq.amount ∧
      execReq.is_executed = true ∧
      execResultVault.config.total_withdrawn =
        exVault.config.total_withdrawn + apprReq.amount) ∧
    execute_withdrawal exVault execReq 10 = .error .AlreadyExecuted :=
  ⟨(C7_execute_characterization.1 exVault singleReq 10 (by decide) (by decide)).mpr
      (by decide),
   (C7_execute_characterization.2.1 exVault apprReq 10 (by decide) (by decide)).mpr
      (by decide),
   C7_execute_characterization.2.2.1 exVault execResultVault apprReq execReq 10
      (by decide),
   C7_execute_characterization.2.2.2 exVault execReq 10 (by decide)⟩

/-- C9 counterexample: an admin-called emergency withdrawal with positive
withdrawable balance still fails (`Overflow`) when the `total_withdrawn`
bump would wrap u64, so the claim's exhaustive list of failure modes
(`UnauthorizedAdmin`, `InsufficientBalance`) is incomplete. -/
theorem C9_counterexample :
    frozenMaxTWVault.config.admin = 1 ∧
    0 < frozenMaxTWVault.lamports - 10 ∧
    emergency_withdraw frozenMaxTWVault 1 10 = .error .Overflow := by
  decide

/-- C9 (amended): an admin-called `emergency_withdraw` with positive
withdrawable balance succeeds regardless of `is_active` — draining
exactly `lamports - minBalance` and adding it to `total_withdrawn` —
provided that counter does not overflow u64 (conjunct 1); a non-admin
caller fails `UnauthorizedAdmin` (conjunct 2); a zero withdrawable
balance fails `InsufficientBalance` (conjunct 3). -/
theorem C9_emergency_withdraw_spec :
    (∀ (v : VaultAccount) (caller minBalance : Nat),
        v.config.admin = caller → 0 < v.lamports - minBalance →
        v.config.total_withdrawn + (v.lamports - minBalance) < U64LIMIT →
        emergency_withdraw v caller minBalance =
          .ok ({ config := { v.config with
                   total_withdrawn := v.config.total_withdrawn + (v.lamports - minBalance) }
                 lamports := v.lamports - (v.lamports - minBalance) },
               v.lamports - minBalance)) ∧
    (∀ (v : VaultAccount) (caller minBalance : Nat),
        ¬ v.config.admin = caller →
        emergency_withdraw v caller minBalance = .error .UnauthorizedAdmin) ∧
    (∀ (v : VaultAccount) (caller minBalance : Nat),
        v.config.admin = caller → v.lamports - minBalance = 0 →
        emergency_withdraw v caller minBalance = .error .InsufficientBalance) := by
  refine ⟨?_, ?_, ?_⟩
  · intro v caller minBalance hadm hpos hov
    unfold emergency_withdraw
    rw [if_neg (not_not_intro hadm), if_neg (by omega)]
    simp only [checkedAdd]
    rw [if_pos hov]
  · intro v caller minBalance hadm
    unfold emergency_withdraw
    rw [if_pos hadm]
  · intro v caller minBalance hadm hz
    unfold emergency_withdraw
    rw [if_neg (not_not_intro hadm), if_pos hz]

/-- Witness for C9: the admin drains the frozen vault down to the rent
floor (90 of 100 lamports); a stranger is rejected; an empty vault (at
the rent floor) is rejected. -/
theorem C9_emergency_withdraw_spec_witness :
    frozenVault.config.is_active = false ∧
    emergency_withdraw frozenVault 1 10 =
      .ok ({ config := { cfgFrozen with total_withdrawn := 90 }, lamports := 10 }, 90) ∧
    emergency_withdraw frozenVault 3 10 = .error .UnauthorizedAdmin ∧
    emergency_withdraw { config := cfgFrozen, lamports := 10 } 1 10 =
      .error .InsufficientBalance :=
  ⟨by decide,
   by rw [C9_emergency_withdraw_spec.1 frozenVault 1 10 (by decide) (by decide) (by decide)]
      decide,
   C9_emergency_withdraw_spec.2.1 frozenVault 3 10 (by decide),
   C9_emergency_withdraw_spec.2.2 { config := cfgFrozen, lamports := 10 } 1 10
     (by decide) (by decide)⟩

/-- C1 (evaluation at the failing input): `execute_withdrawal` has no
`is_active` guard in the source, so on a frozen vault an approved
request still executes and moves 5 lamports out through a non-admin path
(conjunct 2) — contradicting the claim and the `is_active` field's own
documentation ("false = frozen, only admin can withdraw"). The other
conjuncts show the behaviour the claim gets right: deposits are still
accepted, the admin emergency path succeeds, and the agent-spend and
request-creation paths are blocked. -/
theorem C1_frozen_vault_behaviour :
    frozenVault.config.is_active = false ∧
    execute_withdrawal frozenVault apprReq 10 =
      .ok ({ config := { cfgFrozen with total_withdrawn := 5 }, lamports := 95 },
           { apprReq with is_executed := true }) ∧
    deposit frozenVault 20 =
      .ok { config := { cfgFrozen with total_deposited := 20 }, lamports := 120 } ∧
    emergency_withdraw frozenVault 1 10 =
      .ok ({ config := { cfgFrozen with total_withdrawn := 90 }, lamports := 10 }, 90) ∧
    agent_spend frozenVault 2 0 10 5 = .error .VaultNotActive ∧
    create_withdrawal_request frozenVault 0 7 2 0 5 1 = .error .VaultNotActive := by
  decide

/-- C2 counterexample: `update_config` accepts a new daily limit below
the current `daily_spent` with no check, so the invariant
`dailySpent ≤ dailyLimit` does not survive every completed operation. -/
theorem C2_counterexample :
    dailyInv cfgSpent ∧
    update_config cfgSpent 1 none none (some 10) none none =
      .ok { cfgSpent with daily_limit := 10 } ∧
    ¬ dailyInv { cfgSpent with daily_limit := 10 } := by
  refine ⟨?_, by decide, ?_⟩
  · show cfgSpent.daily_spent ≤ cfgSpent.daily_limit
    decide
  · intro hinv
    exact (by decide : ¬ (50 : Nat) ≤ 10) hinv

/-- C2 (amended): `create` establishes `dailySpent ≤ dailyLimit`
(conjunct 1), and every operation sequence preserves it except an
`update_config` that supplies a daily limit below the then-current
`daily_spent` (conjunct 2, with the sequence constrained accordingly). -/
theorem C2_daily_window_invariant :
    (∀ (admin agent gid pt dl th : Nat) (sg : List Nat) (vc : VaultConfig),
        create admin agent gid pt dl th sg = .ok vc → dailyInv vc) ∧
    (∀ (ops : List Op) (s : GlobalState),
        dailyInv s.vault.config → dailySafe s ops = true →
        dailyInv ((ops.foldl step s).vault.config)) := by
  refine ⟨?_, dailyInv_fold⟩
  intro admin agent gid pt dl th sg vc h
  obtain ⟨rfl, -, -⟩ := create_ok h
  exact Nat.zero_le _

/-- Witness for C2: the fresh example vault satisfies the invariant, and
a deposit followed by an in-window agent spend keeps it. -/
theorem C2_daily_window_invariant_witness :
    create 1 2 3 100 150 2 [10, 11, 12] = .ok exCfg ∧
    dailyInv exCfg ∧
    dailySafe exState [Op.deposit 5, Op.agentSpend 2 0 10 50] = true ∧
    dailyInv (([Op.deposit 5, Op.agentSpend 2 0 10 50].foldl step exState).vault.config) :=
  ⟨by decide,
   C2_daily_window_invariant.1 1 2 3 100 150 2 [10, 11, 12] exCfg (by decide),
   by decide,
   C2_daily_window_invariant.2 [Op.deposit 5, Op.agentSpend 2 0 10 50] exState
     (Nat.zero_le 150) (by decide)⟩

/-- C4 counterexample: `update_config` with a new one-element signer set
and no new threshold leaves the old threshold 2 above the new signer
count 1, so the invariant `1 ≤ threshold ≤ signer count` does not
survive every completed operation. -/
theorem C4_counterexample :
    thresholdInv exCfg ∧
    update_config exCfg 1 none none none none (some [10]) = .ok shrunkCfg ∧
    ¬ thresholdInv shrunkCfg := by
  refine ⟨⟨by decide, by decide⟩, by decide, ?_⟩
  rintro ⟨-, h2⟩
  exact absurd h2 (by decide)

/-- C4 (amended): `create` establishes `1 ≤ threshold ≤ signer count`,
rejecting violations with `TooManySigners` (checked first, after the
guardian-id guard) or `InvalidThreshold` (conjuncts 1-3); an
`update_config` that supplies a new threshold validates it against the
post-change signer count, re-establishing the invariant (conjunct 4);
and every operation sequence preserves the invariant except an
`update_config` that shrinks the signer set below the current threshold
without supplying a new one (conjunct 5). -/
theorem C4_threshold_invariant :
    (∀ (admin agent gid pt dl th : Nat) (sg : List Nat) (vc : VaultConfig),
        create admin agent gid pt dl th sg = .ok vc → thresholdInv vc) ∧
    (∀ (admin agent gid pt dl th : Nat) (sg : List Nat),
        gid ≤ 9 → MAX_SIGNERS < sg.length →
        create admin agent gid pt dl th sg = .error .TooManySigners) ∧
    (∀ (admin agent gid pt dl th : Nat) (sg : List Nat),
        gid ≤ 9 → sg.length ≤ MAX_SIGNERS → ¬ (1 ≤ th ∧ th ≤ sg.length) →
        create admin agent gid pt dl th sg = .error .InvalidThreshold) ∧
    (∀ (vc : VaultConfig) (caller : Nat) (a p d : Option Nat) (t : Nat)
        (sg : Option (List Nat)) (vc' : VaultConfig),
        update_config vc caller a p d (some t) sg = .ok vc' → thresholdInv vc') ∧
    (∀ (ops : List Op) (s : GlobalState),
        thresholdInv s.vault.config → threshSafe s ops = true →
        thresholdInv ((ops.foldl step s).vault.config)) := by
  refine ⟨?_, ?_, ?_, ?_, thresholdInv_fold⟩
  · intro admin agent gid pt dl th sg vc h
    obtain ⟨rfl, h1, h2⟩ := create_ok h
    exact ⟨h1, h2⟩
  · intro admin agent gid pt dl th sg hgid hlen
    unfold create
    rw [if_neg (by omega), if_pos hlen]
  · intro admin agent gid pt dl th sg hgid hlen hth
    unfold create
    rw [if_neg (by omega), if_neg (by omega),
      if_pos (show ¬ (0 < th ∧ th ≤ sg.length) from hth)]
  · intro vc caller a p d t sg vc' h
    obtain ⟨-, -, -, hOr⟩ := update_config_ok_fields h
    rcases hOr with ⟨hnone, -⟩ | hb
    · exact Option.noConfusion hnone
    · exact hb

/-- Witness for C4: creation succeeds at 2-of-3 and rejects six signers
and a zero threshold; a combined signer-set-plus-threshold update
re-establishes the invariant; a freeze step preserves it. -/
theorem C4_threshold_invariant_witness :
    create 1 2 3 100 150 2 [10, 11, 12] = .ok exCfg ∧
    thresholdInv exCfg ∧
    create 1 2 3 100 150 2 [10, 11, 12, 13, 14, 15] = .error .TooManySigners ∧
    create 1 2 3 100 150 0 [10, 11, 12] = .error .InvalidThreshold ∧
    update_config exCfg 1 none none none (some 1) (some [10]) =
      .ok { exCfg with multisig_threshold := 1, signer_count := 1, signers := [10] } ∧
    thresholdInv { exCfg with multisig_threshold := 1, signer_count := 1, signers := [10] } ∧
    threshSafe exState [Op.setActive 1 false] = true ∧
    thresholdInv (([Op.setActive 1 false].foldl step exState).vault.config) :=
  ⟨by decide,
   C4_threshold_invariant.1 1 2 3 100 150 2 [10, 11, 12] exCfg (by decide),
   C4_threshold_invariant.2.1 1 2 3 100 150 2 [10, 11, 12, 13, 14, 15]
     (by decide) (by decide),
   C4_threshold_invariant.2.2.1 1 2 3 100 150 0 [10, 11, 12]
     (by decide) (by decide) (by decide),
   by decide,
   C4_threshold_invariant.2.2.2.1 exCfg 1 none none none 1 (some [10])
     { exCfg with multisig_threshold := 1, signer_count := 1, signers := [10] }
     (by decide),
   by decide,
   C4_threshold_invariant.2.2.2.2 [Op.setActive 1 false] exState
     ⟨by decide, by decide⟩ (by decide)⟩

end GuardianVault
